import Mathlib

/-!
Verification of PyVisualStudioSetupConfiguration against its specification.

The Python module `PyVisualStudioSetupConfiguration.py` is shallowly embedded
below.  Pure functions become Lean functions; the external collaborators
(environment variables, filesystem, registry, subprocesses, the native COM
runtime) are modelled as explicit oracle records that each embedded function
consumes; Python exceptions are modelled with `Except Unit`.
-/

/- ### Identifier codec (class GUID, source lines 118-143) -/

/-- Numeric value of a hexadecimal digit character (`int(s, 16)` per digit). -/
def hexVal (c : Char) : Nat :=
  if 48 ≤ c.toNat ∧ c.toNat ≤ 57 then c.toNat - 48
  else if 65 ≤ c.toNat ∧ c.toNat ≤ 70 then c.toNat - 55
  else if 97 ≤ c.toNat ∧ c.toNat ≤ 102 then c.toNat - 87
  else 0

def isHexDigitChar (c : Char) : Bool :=
  (48 ≤ c.toNat && c.toNat ≤ 57) || (65 ≤ c.toNat && c.toNat ≤ 70)
    || (97 ≤ c.toNat && c.toNat ≤ 102)

/-- `int(cs, 16)` on a big-endian list of hex digit characters. -/
def parseHexNat (cs : List Char) : Nat :=
  cs.foldl (fun acc c => acc * 16 + hexVal c) 0

/-- The two brace characters stripped by `name.strip("\x7b\x7d")`. -/
def braceChars : List Char := [Char.ofNat 123, Char.ofNat 125]

def hyphenChar : Char := Char.ofNat 45

/-- Python `str.strip("\x7b\x7d")`: remove leading and trailing brace characters. -/
def pyStripBraces (cs : List Char) : List Char :=
  ((cs.dropWhile (fun c => braceChars.contains c)).reverse.dropWhile
    (fun c => braceChars.contains c)).reverse

/-- Python `str.upper()` on one character (the module only compares ASCII). -/
def pyUpperChar (c : Char) : Char :=
  if 97 ≤ c.toNat ∧ c.toNat ≤ 122 then Char.ofNat (c.toNat - 32) else c

/-- Python `str.lower()` on one character (the module only compares ASCII). -/
def pyLowerChar (c : Char) : Char :=
  if 65 ≤ c.toNat ∧ c.toNat ≤ 90 then Char.ofNat (c.toNat + 32) else c

def pyUpper (s : String) : String := String.mk (s.data.map pyUpperChar)

def pyLower (s : String) : String := String.mk (s.data.map pyLowerChar)

def isPyWhitespace (c : Char) : Bool :=
  c == Char.ofNat 32 || c == Char.ofNat 9 || c == Char.ofNat 10
    || c == Char.ofNat 13 || c == Char.ofNat 11 || c == Char.ofNat 12

/-- Python `str.strip()` with no argument: remove leading and trailing
whitespace. -/
def pyStripWs (s : String) : String :=
  String.mk (((s.data.dropWhile isPyWhitespace).reverse.dropWhile isPyWhitespace).reverse)

/-- The regular expression `([0-9A-Fa-f]\x7b8\x7d)-(..4..)-(..4..)-(..4..)-(..12..)`
matched against the brace-stripped string.  The source uses `re.search`; on the
canonical identifier strings considered here the search coincides with an exact
whole-string match (length 36, hyphens at offsets 8, 13, 18, 23, hex digits
elsewhere). -/
def matchesGuidPattern (cs : List Char) : Bool :=
  cs.length == 36 &&
  (List.range 36).all (fun i =>
    let c := cs.getD i (Char.ofNat 0)
    if i == 8 || i == 13 || i == 18 || i == 23 then c == hyphenChar
    else isHexDigitChar c)

/-- The four fields of the `GUID` ctypes structure: `c_ulong`, two `c_ushort`,
and the 8-entry `c_ubyte` array. -/
structure GUID where
  Data1 : Nat
  Data2 : Nat
  Data3 : Nat
  Data4 : List Nat
deriving DecidableEq, Repr

/-- `GUID.__init__` (source lines 124-134): strip braces, match the pattern,
remove hyphens, then parse the slices `s[0:8]`, `s[8:12]`, `s[12:16]` and the
eight two-digit slices `s[16+2*i : 18+2*i]`.  Without a pattern match the
ctypes structure keeps its zero initialization. -/
def GUID.ofString (name : String) : GUID :=
  let s := pyStripBraces name.data
  if matchesGuidPattern s then
    let t := s.filter (fun c => c != hyphenChar)
    { Data1 := parseHexNat (t.take 8)
      Data2 := parseHexNat ((t.drop 8).take 4)
      Data3 := parseHexNat ((t.drop 12).take 4)
      Data4 := (List.range 8).map (fun i => parseHexNat ((t.drop (16 + i * 2)).take 2)) }
  else
    { Data1 := 0, Data2 := 0, Data3 := 0, Data4 := List.replicate 8 0 }

/-- One hexadecimal digit, uppercase (`%X`). -/
def hexDigitUpper (n : Nat) : Char :=
  if n < 10 then Char.ofNat (48 + n) else Char.ofNat (55 + n)

/-- `%0*X`: fixed-width zero-padded uppercase hex rendering (all field values
produced by `GUID.ofString` fit the declared widths). -/
def toHexPad (width n : Nat) : List Char :=
  ((List.range width).reverse).map (fun i => hexDigitUpper (n / 16 ^ i % 16))

/-- `GUID.__str__` (source lines 139-143).  The format arguments are, verbatim
from the source: `Data1, Data2, Data3, Data4[0], Data4[1], Data4[2], Data4[3],
Data4[5], Data4[5], Data4[6], Data4[7]` — index 4 never appears and index 5
appears twice. -/
def GUID.toStr (g : GUID) : String :=
  let d := fun i => g.Data4.getD i 0
  String.mk ([Char.ofNat 123] ++ toHexPad 8 g.Data1 ++ [hyphenChar]
    ++ toHexPad 4 g.Data2 ++ [hyphenChar]
    ++ toHexPad 4 g.Data3 ++ [hyphenChar]
    ++ toHexPad 2 (d 0) ++ toHexPad 2 (d 1) ++ [hyphenChar]
    ++ toHexPad 2 (d 2) ++ toHexPad 2 (d 3) ++ toHexPad 2 (d 5) ++ toHexPad 2 (d 5)
    ++ toHexPad 2 (d 6) ++ toHexPad 2 (d 7) ++ [Char.ofNat 125])

/- ### Interface catalog and vtable binder (source lines 97-116, 145-402) -/

/-- The interface classes declared in the module. -/
inductive ComClass where
  | IUnknown
  | ISetupConfiguration
  | ISetupConfiguration2
  | IEnumSetupInstances
  | ISetupInstance
  | ISetupInstance2
  | ISetupPackageReference
deriving DecidableEq, Repr

/-- `cls.__bases__[0]` restricted to the interface hierarchy (`IUnknown`
derives from `object`, outside the catalog). -/
def comBaseOf : ComClass → Option ComClass
  | .IUnknown => none
  | .ISetupConfiguration => some .IUnknown
  | .ISetupConfiguration2 => some .ISetupConfiguration
  | .IEnumSetupInstances => some .IUnknown
  | .ISetupInstance => some .IUnknown
  | .ISetupInstance2 => some .ISetupInstance
  | .ISetupPackageReference => some .IUnknown

/-- Each class's `_methods` list: the `(idx, name)` pair of every `COMMETHOD`
entry, in source order. -/
def comMethodsOf : ComClass → List (Nat × String)
  | .IUnknown => [(0, "QueryInterface"), (1, "AddRef"), (2, "Release")]
  | .ISetupConfiguration =>
      [(0, "EnumInstances"), (1, "GetInstanceForCurrentProcess"), (2, "GetInstanceForPath")]
  | .ISetupConfiguration2 => [(0, "EnumAllInstances")]
  | .IEnumSetupInstances => [(0, "Next"), (1, "Skip"), (2, "Reset"), (3, "Clone")]
  | .ISetupInstance =>
      [(0, "GetInstanceId"), (1, "GetInstallDate"), (2, "GetInstallationName"),
       (3, "GetInstallationPath"), (4, "GetInstallationVersion"), (5, "GetDisplayName"),
       (6, "GetDescription"), (7, "ResolvePath")]
  | .ISetupInstance2 => [(0, "GetState"), (1, "GetPackages"), (2, "GetProduct"), (3, "GetProductPath")]
  | .ISetupPackageReference =>
      [(0, "GetId"), (1, "GetVersion"), (2, "GetChip"), (3, "GetLanguage"),
       (4, "GetBranch"), (5, "GetType"), (5, "GetUniqueId")]

/-- The `_method_count` class attribute.  Every class sets it to
`len(_methods)`; `ISetupInstance2` writes the literal `4`, which equals the
length of its `_methods` list. -/
def comMethodCountOf (c : ComClass) : Nat := (comMethodsOf c).length

/-- `GetComMethodCount` (source lines 162-167): own `_method_count` plus the
base chain's, recursively, stopping at `IUnknown`.  The hierarchy has depth at
most 3, so a fuel of 7 is never exhausted. -/
def GetComMethodCountAux : Nat → ComClass → Nat
  | _, .IUnknown => comMethodCountOf .IUnknown
  | 0, c => comMethodCountOf c
  | fuel + 1, c =>
    match comBaseOf c with
    | none => comMethodCountOf c
    | some b => comMethodCountOf c + GetComMethodCountAux fuel b

def GetComMethodCount (c : ComClass) : Nat := GetComMethodCountAux 7 c

/-- `GenerateComMethod` (source lines 101-116) binds the methods of `cls` at
`functions[startIndex + idx]` with `startIndex = cls.__bases__[0].GetComMethodCount()`
(`0` for `IUnknown`). -/
def comBindStartIndex (c : ComClass) : Nat :=
  match comBaseOf c with
  | none => 0
  | some b => GetComMethodCount b

/-- Absolute vtable entry the binder attaches a method with local slot `idx` to. -/
def comBindSlot (c : ComClass) (idx : Nat) : Nat := comBindStartIndex c + idx

/-- The local slot indices declared in one class's own `_methods` list. -/
def comSlotIndices (c : ComClass) : List Nat := (comMethodsOf c).map Prod.fst

/-- Slot indices are contiguous starting at 0 exactly when the index list is
`[0, 1, ..., n-1]`. -/
def contiguousFromZero (l : List Nat) : Bool := l == List.range l.length

/-- Ancestor chain of a class, root first, the class itself excluded. -/
def comAncestorsAux : Nat → ComClass → List ComClass
  | 0, _ => []
  | fuel + 1, c =>
    match comBaseOf c with
    | none => []
    | some b => comAncestorsAux fuel b ++ [b]

def comAncestors (c : ComClass) : List ComClass := comAncestorsAux 7 c

/- ### Remote object handles and QueryInterface (source lines 169-207) -/

/-- Outcome of one call to the underlying COM interface-query vtable entry:
the returned HRESULT and the pointer written through `ppvObject` (`none`
models a null pointer). -/
structure QIOutcome where
  rc : Int
  p : Option Nat
deriving DecidableEq

/-- A constructed interface wrapper: `IUnknown.__init__` stores the raw
pointer in `_IThis` (`none` models wrapping a null `c_void_p`). -/
structure ComHandle where
  ptr : Option Nat
deriving DecidableEq

/-- `IUnknown.QueryInterface` (source lines 201-207) over the underlying
call's outcome: returns `None` when the HRESULT is non-zero, otherwise wraps
the written pointer with `interface(p)` — the pointer is not tested for null,
so a zero HRESULT with a null pointer still produces a wrapper object rather
than the "no such interface" result. -/
def IUnknown.QueryInterface (outcome : QIOutcome) : Option ComHandle :=
  if outcome.rc ≠ 0 then none
  else some { ptr := outcome.p }

/- ### Discovery records (class VSInstanceInfo, source lines 723-759) -/

structure VSInstanceInfo where
  VSInstallLocation : Option String := none
  Version : Option String := none
  VCToolsetVersion : Option String := none
  bWin10SDK : Option Bool := none
  bWin81SDK : Option Bool := none
  chip : Option String := none
deriving DecidableEq, Repr

/-- `VSInstanceInfo.getVersion`: `self.Version or ""`. -/
def VSInstanceInfo.getVersion (v : VSInstanceInfo) : String := v.Version.getD ""

/-- Lexicographic at-most comparison on code-point sequences: Python's `<=`
on strings. -/
def charListLe : List Char → List Char → Bool
  | [], _ => true
  | _ :: _, [] => false
  | a :: as, b :: bs =>
    if a.toNat < b.toNat then true
    else if b.toNat < a.toNat then false
    else charListLe as bs

/-- Python `a <= b` on strings. -/
def pyStrLe (a b : String) : Bool := charListLe a.data b.data

theorem charListLe_total : ∀ a b : List Char, charListLe a b = true ∨ charListLe b a = true
  | [], _ => Or.inl rfl
  | _ :: _, [] => Or.inr rfl
  | a :: as, b :: bs => by
    simp only [charListLe]
    rcases Nat.lt_trichotomy a.toNat b.toNat with h | h | h
    · left; rw [if_pos h]
    · rw [if_neg (by omega), if_neg (by omega), if_neg (by omega), if_neg (by omega)]
      exact charListLe_total as bs
    · right; rw [if_pos h]

theorem charListLe_trans : ∀ a b c : List Char,
    charListLe a b = true → charListLe b c = true → charListLe a c = true
  | [], _, _, _, _ => rfl
  | _ :: _, [], _, h1, _ => by simp [charListLe] at h1
  | _ :: _, _ :: _, [], _, h2 => by simp [charListLe] at h2
  | a :: as, b :: bs, c :: cs, h1, h2 => by
    simp only [charListLe] at h1 h2 ⊢
    by_cases hab : a.toNat < b.toNat
    · by_cases hbc : b.toNat < c.toNat
      · rw [if_pos (by omega)]
      · by_cases hcb : c.toNat < b.toNat
        · rw [if_neg hbc, if_pos hcb] at h2; exact absurd h2 (by simp)
        · rw [if_pos (by omega)]
    · by_cases hba : b.toNat < a.toNat
      · rw [if_neg hab, if_pos hba] at h1; exact absurd h1 (by simp)
      · rw [if_neg hab, if_neg hba] at h1
        by_cases hbc : b.toNat < c.toNat
        · rw [if_pos (by omega)]
        · by_cases hcb : c.toNat < b.toNat
          · rw [if_neg hbc, if_pos hcb] at h2; exact absurd h2 (by simp)
          · rw [if_neg hbc, if_neg hcb] at h2
            rw [if_neg (by omega), if_neg (by omega)]
            exact charListLe_trans as bs cs h1 h2

/-- The comparison used by `list.sort(key=lambda x: x.getVersion(),
reverse=True)`: `a` may precede `b` when `b`'s version is at most `a`'s. -/
def versionDescRel (a b : VSInstanceInfo) : Prop :=
  pyStrLe b.getVersion a.getVersion = true

instance : DecidableRel versionDescRel :=
  fun a b => inferInstanceAs (Decidable (pyStrLe b.getVersion a.getVersion = true))

instance : IsTotal VSInstanceInfo versionDescRel :=
  ⟨fun a b => charListLe_total b.getVersion.data a.getVersion.data⟩

instance : IsTrans VSInstanceInfo versionDescRel :=
  ⟨fun a _ c hab hbc => charListLe_trans c.getVersion.data _ a.getVersion.data hbc hab⟩

/-- `list.sort(key=lambda x: x.getVersion(), reverse=True)`: stable
descending sort on the raw version string (Python's sort is stable, as is
insertion sort). -/
def sortDescByVersion (l : List VSInstanceInfo) : List VSInstanceInfo :=
  List.insertionSort versionDescRel l

/-- The dedup comprehension of `RegeditGetAllVSInstanceInfo` (source line
680): keep an item only when its version has not been seen yet, recording
each kept item's version. -/
def dedupByVersionAux : List VSInstanceInfo → List String → List VSInstanceInfo
  | [], _ => []
  | x :: rest, seen =>
    if seen.contains x.getVersion then dedupByVersionAux rest seen
    else x :: dedupByVersionAux rest (x.getVersion :: seen)

def dedupByVersion (l : List VSInstanceInfo) : List VSInstanceInfo := dedupByVersionAux l []

/-- Python truthiness of an optional string (`None` and `""` are falsy). -/
def pyTruthyStr : Option String → Bool
  | none => false
  | some s => s != ""

/-- Python truthiness of the module-level cache variable: `None` and the
empty list are falsy. -/
def pyTruthyCache : Option (List VSInstanceInfo) → Bool
  | none => false
  | some l => !l.isEmpty

/- ### Filesystem collaborator -/

/-- Oracle for the filesystem calls the module performs. `readFirstLine`
models `f.readline()` on a file that `isfile` reported present. -/
structure FS where
  isdir : String → Bool
  isfile : String → Bool
  readFirstLine : String → String

/-- `os.path.isdir` applied to a Python value that may be `None`: CPython's
`genericpath.isdir` catches only `OSError` and `ValueError`, so a `None`
argument raises `TypeError` out of the call. -/
def pyIsdir (fs : FS) : Option String → Except Unit Bool
  | none => .error ()
  | some p => .ok (fs.isdir p)

/- ### EInstanceState (source lines 453-467) -/

def EInstanceState.eNone : Int := 0
def EInstanceState.eLocal : Int := 1
def EInstanceState.eRegistered : Int := 2
def EInstanceState.eNoRebootRequired : Int := 4
def EInstanceState.eComplete : Int := 0xffffffff

/-- `state & mask == mask` for the masks `eLocal = 1` and `eRegistered = 2`:
Python's `&` acts on the two's-complement integer, so these tests read bits 0
and 1; bit `k` of any integer is `(st // 2^k) mod 2` with floor division and
nonnegative remainder. -/
def stateHasBit (st : Int) (k : Nat) : Bool := (Int.ediv st (2 ^ k)).emod 2 == 1

/- ### Instance extraction (source lines 517-593) -/

/-- Oracle view of one element of the package array: whether the cast to
`ISetupPackageReference` succeeds, and the results of the string getters
(`none` models a non-zero HRESULT). -/
structure PackageRef where
  qiOk : Bool
  getId : Option String
  getType : Option String
  getChip : Option String
deriving DecidableEq

/-- Oracle view of one enumerated instance behind `ISetupInstance2`: the
results of the COM getters used by `_ComGetOneVSInstanceInfo` (`none` models
a non-zero HRESULT; `getPackages = none` models a failed or null array). -/
structure SetupInstance2 where
  getState : Option Int
  getInstallationVersion : Option String
  getInstallationPath : Option String
  getProductOk : Bool
  getPackages : Option (List PackageRef)
deriving DecidableEq

def listContainsSub (sub : List Char) : List Char → Bool
  | [] => sub.isEmpty
  | c :: rest => sub.isPrefixOf (c :: rest) || listContainsSub sub rest

/-- Python `sub in s` on strings: substring containment. -/
def strContainsSub (sub s : String) : Bool := listContainsSub sub.data s.data

/-- The package enumeration loop of `_ComGetOneVSInstanceInfo` (source lines
571-589), folded over the array elements.  A package whose cast fails is
skipped by `continue`; a `None` id raises `TypeError` in the membership test
`win10SDKComponent in packageId`. -/
def packageLoop : List PackageRef → VSInstanceInfo → Except Unit VSInstanceInfo
  | [], info => .ok info
  | pkg :: rest, info =>
    if !pkg.qiOk then packageLoop rest info
    else
      match pkg.getId with
      | none => .error ()
      | some packageId =>
        let info := if strContainsSub "Microsoft.VisualStudio.Component.Windows10SDK" packageId
            && pkg.getType == some "Component" then { info with bWin10SDK := some true } else info
        let info := if packageId == "Microsoft.VisualStudio.Component.Windows81SDK"
            && pkg.getType == some "Component" then { info with bWin81SDK := some true } else info
        let info := if strContainsSub "Microsoft.VisualStudio.Product." packageId
            && pkg.getType == some "Product" then { info with chip := pkg.getChip } else info
        packageLoop rest info

/-- `_ComGetOneVSInstanceInfo` (source lines 517-593).  `Except.error` models
a Python exception escaping the function (the `TypeError` raised by
`os.path.isdir(None)` or by a substring test on `None`); `.ok none` models
`return None`.  Paths are joined with a forward slash standing for the
platform separator. -/
def ComGetOneVSInstanceInfo (fs : FS) (needChipInfo : Bool) :
    Option SetupInstance2 → Except Unit (Option VSInstanceInfo)
  | none => .ok none
  | some inst =>
    match inst.getState with
    | none => .ok none
    | some state =>
      if state == 0 then .ok none
      else
        match inst.getInstallationVersion with
        | none => .ok none
        | some version =>
          if version == "" then .ok none
          else
            let info : VSInstanceInfo := { Version := some version }
            let locStep : Option (Option VSInstanceInfo) :=
              if stateHasBit state 0 then
                match inst.getInstallationPath with
                | none => some none
                | some p => if p == "" then some none
                    else some (some { info with VSInstallLocation := some p })
              else some (some info)
            match locStep with
            | none => .ok none
            | some none => .ok none
            | some (some info) =>
              match pyIsdir fs info.VSInstallLocation with
              | .error e => .error e
              | .ok false => .ok none
              | .ok true =>
                let vcRoot := info.VSInstallLocation.getD ""
                let vcToolsVersionFilePath :=
                  vcRoot ++ "/VC/Auxiliary/Build/Microsoft.VCToolsVersion.default.txt"
                let info :=
                  if fs.isfile vcToolsVersionFilePath then
                    let vcToolsVersion := pyStripWs (fs.readFirstLine vcToolsVersionFilePath)
                    let vcToolsDir := vcRoot ++ "/VC/Tools/MSVC/" ++ vcToolsVersion
                    if fs.isdir vcToolsDir then { info with VCToolsetVersion := some vcToolsVersion }
                    else info
                  else info
                if needChipInfo && stateHasBit state 1 then
                  if !inst.getProductOk then .ok none
                  else
                    match inst.getPackages with
                    | none => .ok none
                    | some packages =>
                      match packageLoop packages info with
                      | .error e => .error e
                      | .ok info => .ok (some info)
                else .ok (some info)

/-- The enumeration loop of `ComGetAllVSInstanceInfo` (source lines 610-617):
each entry of the list is the result of casting one enumerated instance to
`ISetupInstance2` (`none` = failed cast, which the loop skips).  An exception
thrown by the per-instance extraction is caught by the surrounding `try`
around the whole loop, ending the enumeration while keeping the records
accumulated so far. -/
def comEnumLoop (fs : FS) (needChipInfo : Bool) :
    List (Option SetupInstance2) → List VSInstanceInfo → List VSInstanceInfo
  | [], acc => acc
  | oinst :: rest, acc =>
    match oinst with
    | none => comEnumLoop fs needChipInfo rest acc
    | some inst =>
      match ComGetOneVSInstanceInfo fs needChipInfo (some inst) with
      | .error _ => acc
      | .ok none => comEnumLoop fs needChipInfo rest acc
      | .ok (some r) => comEnumLoop fs needChipInfo rest (acc ++ [r])

/-- `ComGetAllVSInstanceInfo` (source lines 595-623).  `rootOk` models the
root-object creation and the two interface casts all succeeding; any failure
there either returns the empty list directly or raises into the `except`
clause with the list still empty.  The descending sort runs in every case
(sorting the empty list is the empty list). -/
def ComGetAllVSInstanceInfo (fs : FS) (rootOk : Bool)
    (instances : List (Option SetupInstance2)) (needChipInfo : Bool) : List VSInstanceInfo :=
  sortDescByVersion (if rootOk then comEnumLoop fs needChipInfo instances [] else [])

/- ### The external locator strategy (VSWhereGetAllVSInstanceInfo, lines 625-653) -/

/-- The shape of a value produced by `json.loads`.  Numeric values are
modelled as integers. -/
inductive Json where
  | str (s : String)
  | num (n : Int)
  | bool (b : Bool)
  | null
  | arr (elems : List Json)
  | obj (fields : List (String × Json))

/-- Python truthiness of a `json.loads` value: the empty string, zero,
`False`, `None`, the empty list and the empty dict are falsy. -/
def pyTruthyJson : Json → Bool
  | .str s => s != ""
  | .num n => n != 0
  | .bool b => b
  | .null => false
  | .arr elems => !elems.isEmpty
  | .obj fields => !fields.isEmpty

/-- Python `for item in x` over a `json.loads` result: a list yields its
elements, a string yields its characters (each a one-character string), a
dict yields its keys, and a number, boolean or `None` raises `TypeError`. -/
def pyIterJson : Json → Except Unit (List Json)
  | .arr elems => .ok elems
  | .str s => .ok (s.data.map (fun c => Json.str (String.mk [c])))
  | .obj fields => .ok (fields.map (fun kv => Json.str kv.1))
  | .num _ => .error ()
  | .bool _ => .error ()
  | .null => .error ()

/-- `item.get(key)`: dictionary lookup returning `None` for a missing key;
any non-dict item raises `AttributeError`. -/
def pyGetField (j : Json) (key : String) : Except Unit (Option Json) :=
  match j with
  | .obj fields => .ok (fields.lookup key)
  | _ => .error ()

/-- Python `x or ""` over an optional value: the value itself when truthy,
the empty string otherwise (also when the value is `None`). -/
def pyOrEmptyStr (v : Option Json) : Json :=
  match v with
  | none => .str ""
  | some j => if pyTruthyJson j then j else .str ""

/-- One `VSInstanceInfo` object as built by the locator loop (source lines
641-647), before any view conversion: `VSInstallLocation` holds whatever
value `item.get('installationPath')` produced, and `Version` holds
`item.get('installationVersion') or ""` — possibly a non-string JSON value.
The remaining fields are assigned `None`. -/
structure VSWhereRawInfo where
  installLocation : Option Json
  version : Json

/-- `x.getVersion()` on a raw locator record: `self.Version or ""`. -/
def VSWhereRawInfo.sortKey (r : VSWhereRawInfo) : Json :=
  if pyTruthyJson r.version then r.version else .str ""

/-- The per-item record construction of `VSWhereGetAllVSInstanceInfo`
(source lines 640-649). -/
def vswhereItemsToRecs : List Json → Except Unit (List VSWhereRawInfo)
  | [] => .ok []
  | item :: rest =>
    match pyGetField item "installationPath" with
    | .error e => .error e
    | .ok instPath =>
      match pyGetField item "installationVersion" with
      | .error e => .error e
      | .ok instVer =>
        let rec0 : VSWhereRawInfo :=
          { installLocation := instPath
            version := pyOrEmptyStr instVer }
        match vswhereItemsToRecs rest with
        | .error e => .error e
        | .ok rs => .ok (rec0 :: rs)

/-- Whether Python can order two sort keys with `<` without raising:
strings compare with strings; numbers and booleans compare with each other
(a boolean is an integer).  Any other pair — in particular a string against
a number — raises `TypeError`.  (List-valued keys, which Python compares
element-wise and which can themselves either order or raise, are treated as
raising; no theorem below relies on that region.) -/
def pyKeyLe (a b : Json) : Bool :=
  match a, b with
  | .str x, .str y => pyStrLe x y
  | .num x, .num y => decide (x ≤ y)
  | .num x, .bool y => decide (x ≤ (if y then 1 else 0))
  | .bool x, .num y => decide ((if x then (1 : Int) else 0) ≤ y)
  | .bool x, .bool y => decide ((if x then (1 : Int) else 0) ≤ (if y then 1 else 0))
  | _, _ => true

/-- Mutual orderability of all the sort keys of one list: all strings, or
all numbers/booleans.  Python's sort compares every consecutive pair of
elements while detecting runs, so a key list that mixes the two classes (or
contains a key outside them) gets a cross-class comparison somewhere and
raises. -/
def pyKeysAllComparable (ks : List Json) : Bool :=
  ks.all (fun k => match k with | .str _ => true | _ => false)
  || ks.all (fun k => match k with | .num _ => true | .bool _ => true | _ => false)

/-- The stable descending order used by the line-652 sort, on raw records. -/
def rawVersionDescRel (a b : VSWhereRawInfo) : Prop :=
  pyKeyLe b.sortKey a.sortKey = true

instance : DecidableRel rawVersionDescRel :=
  fun a b => inferInstanceAs (Decidable (pyKeyLe b.sortKey a.sortKey = true))

/-- `vsInstances.sort(key=lambda x: x.getVersion(), reverse=True)` at source
line 652, over possibly non-string keys.  A list of at most one record
performs no comparison and never raises; a longer list raises `TypeError`
unless all keys are mutually orderable, and otherwise sorts stably
descending. -/
def pySortRawInfosDesc (l : List VSWhereRawInfo) : Except Unit (List VSWhereRawInfo) :=
  if l.length ≤ 1 then .ok l
  else if pyKeysAllComparable (l.map VSWhereRawInfo.sortKey) then
    .ok (List.insertionSort rawVersionDescRel l)
  else .error ()

/-- A field value as it appears in the string-typed record model.  The
source keeps the raw value itself; once the strategy's own sort has run, no
code in the module reads these fields again, so only a non-string value's
presence is observable, and it is rendered with a fixed tag. -/
def jsonFieldAsString : Json → String
  | .str s => s
  | _ => "<non-string value>"

/-- View of a raw locator record as a normalized record (the fields other
than path and version were assigned `None` at source lines 644-647). -/
def rawToVSInstanceInfo (r : VSWhereRawInfo) : VSInstanceInfo :=
  { VSInstallLocation := r.installLocation.map jsonFieldAsString
    Version := some (jsonFieldAsString r.version)
    VCToolsetVersion := none
    bWin10SDK := none
    bWin81SDK := none
    chip := none }

/-- Oracle record for the collaborators of the external locator strategy. -/
structure VSWhereOracles where
  env : String → Option String
  isfile : String → Bool
  runOutput : String → Option String
  jsonLoads : String → Option Json

/-- The loop of `VSWhereGetAllVSInstanceInfo` over the two environment
variable names (source lines 628-649).  The boolean marks the early
`return vsInstances` taken when `subprocess.check_output` raises, which
skips the final sort. -/
def vswhereLoop (o : VSWhereOracles) :
    List String → List VSWhereRawInfo → Except Unit (List VSWhereRawInfo × Bool)
  | [], acc => .ok (acc, false)
  | programFile :: rest, acc =>
    match o.env programFile with
    | none => vswhereLoop o rest acc
    | some programFilePath =>
      if programFilePath == "" then vswhereLoop o rest acc
      else
        let vsWherePath := programFilePath ++ "/Microsoft Visual Studio/Installer/vswhere.exe"
        if o.isfile vsWherePath then
          match o.runOutput vsWherePath with
          | none => .ok (acc, true)
          | some result =>
            let vsWhereInfo := (o.jsonLoads result).getD (.arr [])
            match pyIterJson vsWhereInfo with
            | .error e => .error e
            | .ok items =>
              match vswhereItemsToRecs items with
              | .error e => .error e
              | .ok recs => vswhereLoop o rest (acc ++ recs)
        else vswhereLoop o rest acc

/-- `VSWhereGetAllVSInstanceInfo` (source lines 625-653): probe
`ProgramFiles(x86)` then `ProgramFiles`; a `subprocess` failure returns the
records collected so far unsorted; JSON that fails to parse contributes
nothing.  JSON of a non-list shape (or with non-object elements) raises a
`TypeError`/`AttributeError` in the loop, and the final sort raises
`TypeError` when the stored version values are not mutually orderable (for
example a numeric `installationVersion` next to a string one) — both
escape the function. -/
def VSWhereGetAllVSInstanceInfo (o : VSWhereOracles) : Except Unit (List VSInstanceInfo) :=
  match vswhereLoop o ["ProgramFiles(x86)", "ProgramFiles"] [] with
  | .error e => .error e
  | .ok (acc, true) => .ok (acc.map rawToVSInstanceInfo)
  | .ok (acc, false) =>
    match pySortRawInfosDesc acc with
    | .error e => .error e
    | .ok sorted2 => .ok (sorted2.map rawToVSInstanceInfo)

/- ### The registry strategy (RegeditGetAllVSInstanceInfo, lines 655-682) -/

/-- Oracle for `ReadWinreg` under `HKEY_LOCAL_MACHINE`: key path and value
name to the stored value, `none` on any failure.  A successful
`winreg.QueryValueEx` returns a (value, type) pair — always truthy — whose
value component is what the record stores. -/
def RegRead : Type := String → String → Option String

def vsGenerators : List (String × String) :=
  [("14.0", "Visual Studio 14 2015"), ("12.0", "Visual Studio 12 2013"),
   ("11.0", "Visual Studio 11 2012"), ("9.0", "Visual Studio 9 2008")]

def vsVariants : List String := ["VisualStudio\\", "VCExpress\\", "WDExpress\\"]

def vsEntries : List (String × String) := [("", "InstallDir"), ("\\Setup\\VC", "ProductDir")]

/-- The triple-nested probe loop of `RegeditGetAllVSInstanceInfo` (source
lines 664-676), before deduplication and sorting. -/
def regeditCollected (read : RegRead) : List VSInstanceInfo :=
  vsGenerators.flatMap (fun vsGenerator =>
    vsVariants.flatMap (fun vsVariant =>
      vsEntries.flatMap (fun vsEntry =>
        let key := "SOFTWARE\\Microsoft\\" ++ vsVariant ++ vsGenerator.1 ++ vsEntry.1
        match read key vsEntry.2 with
        | some dir => [{ Version := some vsGenerator.1, VSInstallLocation := some dir }]
        | none => [])))

/-- `RegeditGetAllVSInstanceInfo` (source lines 655-682): probe the fixed
cartesian product, drop later records whose version was already seen, then
sort descending by version. -/
def RegeditGetAllVSInstanceInfo (read : RegRead) : List VSInstanceInfo :=
  sortDescByVersion (dedupByVersion (regeditCollected read))

/- ### The environment strategy (EnvGetAllVSInstanceInfo, lines 684-707) -/

def oldVSVersions : List (String × String) :=
  [("Visual Studio 14 2015", "14"), ("Visual Studio 12 2013", "12"),
   ("Visual Studio 11 2012", "11"), ("Visual Studio 9 2008", "9")]

/-- `os.path.abspath(os.path.join(dir, "../.."))` — resolving two levels up
is filesystem/interpreter work, modelled as part of the filesystem oracle. -/
structure EnvOracles where
  env : String → Option String
  isdir : String → Bool
  parentParent : String → String

/-- `EnvGetAllVSInstanceInfo` (source lines 684-707): for each legacy
version, read `VS<v>0COMNTOOLS`, require the directory to exist, and record
the install root two levels up; sort descending by version. -/
def EnvGetAllVSInstanceInfo (o : EnvOracles) : List VSInstanceInfo :=
  sortDescByVersion (oldVSVersions.flatMap (fun item =>
    let version := item.2
    let envVSCommonToolsDir := (o.env ("VS" ++ version ++ "0COMNTOOLS")).getD ""
    if envVSCommonToolsDir != "" then
      if o.isdir envVSCommonToolsDir then
        [{ Version := some version,
           VSInstallLocation := some (o.parentParent envVSCommonToolsDir) }]
      else []
    else []))

/- ### The build-tool-default strategy (GetCMakeDefaultVSInstanceInfo, lines 710-721) -/

/-- `GetCMakeDefaultVSInstanceInfo` (source lines 710-721).
`subprocess.getoutput` never raises; the regular-expression search of the
help text for a starred generator line is abstracted as an oracle yielding
the matched major-version group when the output is non-empty and the pattern
occurs. -/
def GetCMakeDefaultVSInstanceInfo (cmakeMatch : Option String) : List VSInstanceInfo :=
  match cmakeMatch with
  | some vsMajor => [{ Version := some vsMajor }]
  | none => []

/- ### The embedded-kit strategy (GetEWDKAllVSInstanceInfo, lines 490-515) -/

/-- `GetEWDKAllVSInstanceInfo` (source lines 490-515): with the skip flag
clear and both driver-kit session variables equal to "true" after
lower-casing, synthesize one record from the session environment; the record
is returned only when `VisualStudioVersion` is truthy. -/
def GetEWDKAllVSInstanceInfo (skipEWDK : Bool) (env : String → Option String) :
    List VSInstanceInfo :=
  if skipEWDK then []
  else
    let envEnterpriseWDK := (env "EnterpriseWDK").getD ""
    let envDisableRegistryUse := (env "DisableRegistryUse").getD ""
    if pyLower envEnterpriseWDK == "true" && pyLower envDisableRegistryUse == "true" then
      let envWindowsSdkDir81 := (env "WindowsSdkDir_81").getD ""
      let envVSVersion := env "VisualStudioVersion"
      let vsInstanceInfo : VSInstanceInfo :=
        { bWin10SDK := some true
          bWin81SDK := some (envWindowsSdkDir81 != "")
          Version := envVSVersion
          VSInstallLocation := env "VSINSTALLDIR"
          VCToolsetVersion := env "VCToolsVersion"
          chip := env "VSCMD_ARG_TGT_ARCH" }
      if pyTruthyStr envVSVersion then [vsInstanceInfo] else []
    else []

/- ### The strategy chain (GetAllVSInstanceInfo, lines 762-794) -/

/-- All collaborator oracles consumed by the strategy chain. -/
structure World where
  env : String → Option String
  fs : FS
  comRootOk : Bool
  comInstances : List (Option SetupInstance2)
  vswhereRun : String → Option String
  jsonLoads : String → Option Json
  regRead : String → String → Option String
  parentParent : String → String
  cmakeMatch : Option String

def World.vswhereOracles (w : World) : VSWhereOracles :=
  { env := w.env, isfile := w.fs.isfile, runOutput := w.vswhereRun, jsonLoads := w.jsonLoads }

def World.envOracles (w : World) : EnvOracles :=
  { env := w.env, isdir := w.fs.isdir, parentParent := w.parentParent }

/-- `GetAllVSInstanceInfo` (source lines 762-794).  The module-level
`vsInstancesCache` is passed in and the updated value is returned alongside
the outcome; `Except.error` models an exception escaping to the caller (the
assignment at line 776 has already happened when line 784 raises, so the
cache is the EWDK list at that point).  Mirrors the source statement by
statement: a truthy cache is returned unless `ignoreCache`; the EWDK list is
returned when non-empty; `ComGetAllVSInstanceInfo(needChipInfo) or
VSWhereGetAllVSInstanceInfo()` picks the locator only when the COM list is
empty; the registry list (or, when it is empty, the environment list) is
appended unconditionally; the CMake default is consulted last.  The part of
the body after the line-784 assignment is split into `getAllAfterPrimary`. -/
def getAllAfterPrimary (w : World) (primary : List VSInstanceInfo) :
    Except Unit (List VSInstanceInfo) × Option (List VSInstanceInfo) :=
  let regRes := RegeditGetAllVSInstanceInfo w.regRead
  let cache2 := primary ++ (if !regRes.isEmpty then regRes
                            else EnvGetAllVSInstanceInfo w.envOracles)
  if cache2.length ≠ 0 then (.ok cache2, some cache2)
  else
    let cache3 := GetCMakeDefaultVSInstanceInfo w.cmakeMatch
    if cache3.length ≠ 0 then (.ok cache3, some cache3)
    else (.ok [], some cache3)

def GetAllVSInstanceInfo (needChipInfo skipEWDK ignoreCache : Bool) (w : World)
    (vsInstancesCache : Option (List VSInstanceInfo)) :
    Except Unit (List VSInstanceInfo) × Option (List VSInstanceInfo) :=
  if pyTruthyCache vsInstancesCache && !ignoreCache then
    (.ok (vsInstancesCache.getD []), vsInstancesCache)
  else
    let cache1 := GetEWDKAllVSInstanceInfo skipEWDK w.env
    if cache1.length ≠ 0 then (.ok cache1, some cache1)
    else
      let comRes := ComGetAllVSInstanceInfo w.fs w.comRootOk w.comInstances needChipInfo
      match (if !comRes.isEmpty then Except.ok comRes
             else VSWhereGetAllVSInstanceInfo w.vswhereOracles) with
      | .error e => (.error e, some cache1)
      | .ok primary => getAllAfterPrimary w primary

/- ### Concrete oracles used by witnesses and counterexamples -/

/-- A filesystem where every directory probe succeeds and no file exists. -/
def fsBare : FS :=
  { isdir := fun _ => true, isfile := fun _ => false, readFirstLine := fun _ => "" }

/-- An instance whose state read succeeds with the value 0 (`eNone`) while
version and path would be readable. -/
def instStateZero : SetupInstance2 :=
  { getState := some 0
    getInstallationVersion := some "17.0"
    getInstallationPath := some "/vs"
    getProductOk := true
    getPackages := some [] }

/- ### Claim theorems -/

/-- C1: the spec invariant — every catalog interface declares contiguous
local slot indices starting at 0, and the binder attaches each method to the
absolute vtable entry `sum of ancestors' own method counts + local index`.
The binder half holds for the whole catalog, but `ISetupPackageReference`
declares `GetType` and `GetUniqueId` both at local slot 5, so its index list
`[0,1,2,3,4,5,5]` is not contiguous and `GetUniqueId` is bound to absolute
entry 8 — the `GetType` vtable entry — instead of entry 9. -/
theorem C1_package_reference_slot_bug :
    comSlotIndices ComClass.ISetupPackageReference = [0, 1, 2, 3, 4, 5, 5]
    ∧ contiguousFromZero (comSlotIndices ComClass.ISetupPackageReference) = false
    ∧ comBindSlot ComClass.ISetupPackageReference 5 = 8
    ∧ (∀ c : ComClass, comBindStartIndex c = ((comAncestors c).map comMethodCountOf).sum)
    ∧ ([ComClass.IUnknown, ComClass.ISetupConfiguration, ComClass.ISetupConfiguration2,
        ComClass.IEnumSetupInstances, ComClass.ISetupInstance,
        ComClass.ISetupInstance2].all
          (fun c => contiguousFromZero (comSlotIndices c))) = true := by
  refine ⟨by decide, by decide, by decide, ?_, by decide⟩
  intro c
  cases c <;> rfl

/-- C2: the identifier round trip `format(parse(s)) == s.upper()` fails:
`GUID.__str__` renders `Data4[5]` twice and never renders `Data4[4]`, so the
fifth byte of the trailing byte-array segment is replaced by a copy of the
sixth. -/
theorem C2_format_parse_drops_byte4 :
    GUID.toStr (GUID.ofString "\x7b12345678-9ABC-DEF0-1122-334455667788\x7d")
      = "\x7b12345678-9ABC-DEF0-1122-334466667788\x7d"
    ∧ GUID.toStr (GUID.ofString "\x7b12345678-9ABC-DEF0-1122-334455667788\x7d")
      ≠ pyUpper "\x7b12345678-9ABC-DEF0-1122-334455667788\x7d" := by
  exact ⟨by decide, by decide⟩

/-- C5 counterexample: a run in which the interface-query method returns
status 0 but writes a null pointer.  The claim says the result must be the
"no such interface" outcome (`none`); the code returns a wrapper object
around the null pointer instead. -/
theorem C5_zero_status_null_pointer_counterexample :
    IUnknown.QueryInterface { rc := 0, p := none } = some { ptr := none } := by
  decide

/-- C5 (amended): `QueryInterface` yields the "no such interface" result
exactly when the underlying call's status is non-zero; with status 0 it
always constructs a new owning wrapper, even around a null pointer. -/
theorem C5_qi_none_iff_nonzero_status (o : QIOutcome) :
    IUnknown.QueryInterface o = none ↔ o.rc ≠ 0 := by
  unfold IUnknown.QueryInterface
  split <;> simp_all

/-- C10: an instance whose installation-state read succeeds with the numeric
value 0 (`eNone`) produces no record: the falsy-value test `if not state`
cannot distinguish a failed read from the state value 0, so the instance is
silently dropped regardless of its version and path being readable. -/
theorem C10_state_zero_produces_no_record (fs : FS) (needChipInfo : Bool)
    (inst : SetupInstance2) (h : inst.getState = some 0) :
    ComGetOneVSInstanceInfo fs needChipInfo (some inst) = .ok none := by
  simp [ComGetOneVSInstanceInfo, h]

/-- C10 witness: the dropped-instance theorem applied to a concrete instance
whose version ("17.0") and path ("/vs") are readable. -/
theorem C10_state_zero_witness :
    ComGetOneVSInstanceInfo fsBare true (some instStateZero) = .ok none :=
  C10_state_zero_produces_no_record fsBare true instStateZero rfl

deriving instance DecidableEq for Except

/-- A complete instance: local bit set, version "17.0", path "/vs17". -/
def instGood17 : SetupInstance2 :=
  { getState := some 1
    getInstallationVersion := some "17.0"
    getInstallationPath := some "/vs17"
    getProductOk := true
    getPackages := some [] }

/-- An instance whose state bitmask (`eRegistered = 2`) excludes the local
bit while its version and path reads would succeed. -/
def instNoLocal16 : SetupInstance2 :=
  { getState := some 2
    getInstallationVersion := some "16.0"
    getInstallationPath := some "/vs16"
    getProductOk := true
    getPackages := some [] }

/-- A second complete instance, enumerated after the no-local one. -/
def instGood15 : SetupInstance2 :=
  { getState := some 1
    getInstallationVersion := some "15.0"
    getInstallationPath := some "/vs15"
    getProductOk := true
    getPackages := some [] }

/-- C4 (amended): an enumerated instance with readable state and non-empty
version whose state excludes the local bit produces no record — the
compiler-root directory test is applied to the still-unset install location
(`None`), raising `TypeError` — and because the whole enumeration loop sits
in one `try` block, the raise also ends the loop, keeping only the records
accumulated before it.  Failures that return `None` instead of raising leave
the remaining instances unaffected. -/
theorem C4_no_local_bit_raises_and_aborts (fs : FS) (needChipInfo : Bool)
    (inst : SetupInstance2) (st : Int) (ver : String)
    (hst : inst.getState = some st) (hst0 : st ≠ 0)
    (hver : inst.getInstallationVersion = some ver) (hver0 : ver ≠ "")
    (hloc : stateHasBit st 0 = false) :
    ComGetOneVSInstanceInfo fs needChipInfo (some inst) = .error ()
    ∧ ∀ rest acc, comEnumLoop fs needChipInfo (some inst :: rest) acc = acc := by
  have h1 : ComGetOneVSInstanceInfo fs needChipInfo (some inst) = .error () := by
    simp [ComGetOneVSInstanceInfo, hst, hver, hst0, hver0, hloc, pyIsdir]
  exact ⟨h1, fun rest acc => by simp [comEnumLoop, h1]⟩

/-- C4 counterexample: `instNoLocal16` has readable state (2, excluding the
local bit) and non-empty readable version "16.0", yet per-instance extraction
raises rather than producing a path-less record, and the enumeration of
three instances yields only the record of the first — the instance after the
failing one is lost as well. -/
theorem C4_absent_path_counterexample :
    instNoLocal16.getState = some 2
    ∧ stateHasBit 2 0 = false
    ∧ instNoLocal16.getInstallationVersion = some "16.0"
    ∧ ComGetOneVSInstanceInfo fsBare false (some instNoLocal16) = .error ()
    ∧ ComGetAllVSInstanceInfo fsBare true
        [some instGood17, some instNoLocal16, some instGood15] false
      = [{ VSInstallLocation := some "/vs17", Version := some "17.0" }] := by
  exact ⟨rfl, by decide, rfl, by decide, by decide⟩

/-- C4 witness: the amended theorem applied to `instNoLocal16`, with a
non-empty accumulator showing that already-collected records are kept while
the remaining instance is dropped. -/
theorem C4_no_local_bit_witness :
    ComGetOneVSInstanceInfo fsBare false (some instNoLocal16) = .error ()
    ∧ comEnumLoop fsBare false [some instNoLocal16, some instGood15]
        [{ VSInstallLocation := some "/vs17", Version := some "17.0" }]
      = [{ VSInstallLocation := some "/vs17", Version := some "17.0" }] := by
  have h := C4_no_local_bit_raises_and_aborts fsBare false instNoLocal16 2 "16.0"
    rfl (by decide) rfl (by decide) (by decide)
  exact ⟨h.1, h.2 [some instGood15] _⟩

/-- Every record surviving the dedup comprehension has a version outside the
seen set and is the first record of the input carrying its version. -/
theorem dedupByVersionAux_spec (l : List VSInstanceInfo) :
    ∀ (seen : List String), ∀ r ∈ dedupByVersionAux l seen,
      ¬ r.getVersion ∈ seen
      ∧ l.find? (fun x => x.getVersion == r.getVersion) = some r := by
  induction l with
  | nil => intro seen r hr; simp [dedupByVersionAux] at hr
  | cons x rest ih =>
    intro seen r hr
    by_cases hx : seen.contains x.getVersion = true
    · rw [dedupByVersionAux, if_pos hx] at hr
      obtain ⟨hns, hfind⟩ := ih seen r hr
      have hxmem : x.getVersion ∈ seen := List.elem_iff.mp hx
      have hne : (x.getVersion == r.getVersion) = false := by
        rw [beq_eq_false_iff_ne]
        intro h; rw [h] at hxmem; exact hns hxmem
      exact ⟨hns, by rw [List.find?_cons_of_neg _ (by simp [hne]), hfind]⟩
    · rw [dedupByVersionAux, if_neg hx] at hr
      rcases List.mem_cons.mp hr with hrx | hrtail
      · subst hrx
        refine ⟨fun hmem => hx (List.elem_iff.mpr hmem), ?_⟩
        exact List.find?_cons_of_pos _ (by simp)
      · obtain ⟨hns, hfind⟩ := ih (x.getVersion :: seen) r hrtail
        have hne : (x.getVersion == r.getVersion) = false := by
          rw [beq_eq_false_iff_ne]
          intro h
          exact hns (by rw [← h]; exact List.mem_cons_self _ _)
        refine ⟨fun hmem => hns (List.mem_cons_of_mem _ hmem), ?_⟩
        rw [List.find?_cons_of_neg _ (by simp [hne]), hfind]

/-- The dedup comprehension leaves pairwise distinct versions. -/
theorem dedupByVersionAux_versions_nodup (l : List VSInstanceInfo) :
    ∀ seen : List String,
      ((dedupByVersionAux l seen).map VSInstanceInfo.getVersion).Nodup := by
  induction l with
  | nil => intro seen; simp [dedupByVersionAux]
  | cons x rest ih =>
    intro seen
    by_cases hx : seen.contains x.getVersion = true
    · rw [dedupByVersionAux, if_pos hx]; exact ih seen
    · rw [dedupByVersionAux, if_neg hx]
      simp only [List.map_cons, List.nodup_cons]
      refine ⟨?_, ih _⟩
      intro hmem
      rcases List.mem_map.mp hmem with ⟨r, hr, hv⟩
      have hspec := (dedupByVersionAux_spec rest (x.getVersion :: seen) r hr).1
      exact hspec (by simp [hv])

/-- C9: for every behavior of the registry oracle, the registry strategy's
list has pairwise distinct version strings, is sorted descending by the raw
version string, and each returned record is the first-encountered record of
the probe loop with its version (deduplication before sorting, first
occurrence wins). -/
theorem C9_registry_dedup_and_sort (read : RegRead) :
    ((RegeditGetAllVSInstanceInfo read).map VSInstanceInfo.getVersion).Nodup
    ∧ List.Pairwise versionDescRel (RegeditGetAllVSInstanceInfo read)
    ∧ ∀ r ∈ RegeditGetAllVSInstanceInfo read,
        (regeditCollected read).find? (fun x => x.getVersion == r.getVersion) = some r := by
  have hperm : (RegeditGetAllVSInstanceInfo read).Perm
      (dedupByVersion (regeditCollected read)) :=
    List.perm_insertionSort versionDescRel _
  refine ⟨?_, ?_, ?_⟩
  · exact (hperm.map VSInstanceInfo.getVersion).symm.nodup
      (dedupByVersionAux_versions_nodup (regeditCollected read) [])
  · exact List.sorted_insertionSort versionDescRel _
  · intro r hr
    exact (dedupByVersionAux_spec (regeditCollected read) [] r (hperm.mem_iff.mp hr)).2

/-- A registry oracle with two distinct variants both populated for version
"14.0" (so the probe loop meets "14.0" twice) and one entry for "12.0". -/
def regReadDup : String → String → Option String := fun key valueName =>
  if key == "SOFTWARE\\Microsoft\\VisualStudio\\14.0" && valueName == "InstallDir" then
    some "C:/VS14"
  else if key == "SOFTWARE\\Microsoft\\VCExpress\\14.0" && valueName == "InstallDir" then
    some "C:/VS14E"
  else if key == "SOFTWARE\\Microsoft\\VisualStudio\\12.0" && valueName == "InstallDir" then
    some "C:/VS12"
  else none

/-- C9 witness: on the duplicate-bearing oracle the returned "14.0" record is
the first-encountered probe result (`C:/VS14`, not `C:/VS14E`). -/
theorem C9_registry_witness :
    (regeditCollected regReadDup).find?
      (fun x => x.getVersion ==
        ({ Version := some "14.0", VSInstallLocation := some "C:/VS14" }
          : VSInstanceInfo).getVersion)
      = some { Version := some "14.0", VSInstallLocation := some "C:/VS14" } :=
  (C9_registry_dedup_and_sort regReadDup).2.2 _ (by decide)

/- ### Concrete worlds for the strategy-chain claims -/

/-- A filesystem where nothing exists. -/
def fsNone : FS :=
  { isdir := fun _ => false, isfile := fun _ => false, readFirstLine := fun _ => "" }

/-- A world in which every collaborator fails or reports nothing. -/
def wEmpty : World :=
  { env := fun _ => none
    fs := fsNone
    comRootOk := false
    comInstances := []
    vswhereRun := fun _ => none
    jsonLoads := fun _ => none
    regRead := fun _ _ => none
    parentParent := fun s => s
    cmakeMatch := none }

/-- A world where only the registry yields results (via `regReadDup`). -/
def wReg : World := { wEmpty with regRead := regReadDup }

/-- A world where the native strategy succeeds (one complete instance) and
the registry also has entries. -/
def wC3 : World :=
  { wEmpty with
    fs := fsBare
    comRootOk := true
    comInstances := [some instGood17]
    regRead := regReadDup }

/- ### C3: strategy-chain sequencing -/

/-- C3 (amended): the locator runs only when the native strategy is empty
and the environment strategy only when the registry is empty, but the
registry strategy runs unconditionally after the native/locator stage and
its records are appended even when that stage succeeded. -/
theorem C3_registry_appended_despite_com_success (needChipInfo skipEWDK ignoreCache : Bool)
    (w : World) (cache : Option (List VSInstanceInfo))
    (hmiss : (pyTruthyCache cache && !ignoreCache) = false)
    (hewdk : GetEWDKAllVSInstanceInfo skipEWDK w.env = [])
    (hcom : ComGetAllVSInstanceInfo w.fs w.comRootOk w.comInstances needChipInfo ≠ []) :
    (GetAllVSInstanceInfo needChipInfo skipEWDK ignoreCache w cache).1
      = .ok (ComGetAllVSInstanceInfo w.fs w.comRootOk w.comInstances needChipInfo
          ++ (if !(RegeditGetAllVSInstanceInfo w.regRead).isEmpty
              then RegeditGetAllVSInstanceInfo w.regRead
              else EnvGetAllVSInstanceInfo w.envOracles)) := by
  have hc : (ComGetAllVSInstanceInfo w.fs w.comRootOk w.comInstances needChipInfo).isEmpty
      = false := by
    simp [List.isEmpty_iff, hcom]
  have hlen : (ComGetAllVSInstanceInfo w.fs w.comRootOk w.comInstances needChipInfo
      ++ (if !(RegeditGetAllVSInstanceInfo w.regRead).isEmpty
          then RegeditGetAllVSInstanceInfo w.regRead
          else EnvGetAllVSInstanceInfo w.envOracles)).length ≠ 0 := by
    rcases hx : ComGetAllVSInstanceInfo w.fs w.comRootOk w.comInstances needChipInfo with
      _ | ⟨a, t⟩
    · exact absurd hx hcom
    · simp
  simp [GetAllVSInstanceInfo, getAllAfterPrimary, hmiss, hewdk, hc, hlen]
  rw [if_pos (fun hcontr => absurd hcontr hcom)]

/-- C3 counterexample: in a world where the native strategy yields one
record, the chain result also contains the registry strategy's records —
refuting "when the native binding strategy returns a non-empty list, the
registry strategy does not execute and contributes no records". -/
theorem C3_chain_counterexample :
    ComGetAllVSInstanceInfo wC3.fs wC3.comRootOk wC3.comInstances false
      = [{ VSInstallLocation := some "/vs17", Version := some "17.0" }]
    ∧ (GetAllVSInstanceInfo false true false wC3 none).1
      = .ok [{ VSInstallLocation := some "/vs17", Version := some "17.0" },
             { Version := some "14.0", VSInstallLocation := some "C:/VS14" },
             { Version := some "12.0", VSInstallLocation := some "C:/VS12" }] := by
  exact ⟨by decide, by decide⟩

/-- C3 witness: the amended theorem instantiated at the concrete world. -/
theorem C3_registry_appended_witness :
    (GetAllVSInstanceInfo false true false wC3 none).1
      = .ok (ComGetAllVSInstanceInfo wC3.fs wC3.comRootOk wC3.comInstances false
          ++ (if !(RegeditGetAllVSInstanceInfo wC3.regRead).isEmpty
              then RegeditGetAllVSInstanceInfo wC3.regRead
              else EnvGetAllVSInstanceInfo wC3.envOracles)) :=
  C3_registry_appended_despite_com_success false true false wC3 none
    (by decide) (by decide) (by decide)

/- ### C7: cache behavior -/

/-- The tail of the chain stores in the cache exactly the list it returns. -/
theorem getAllAfterPrimary_cached (w : World) (primary l : List VSInstanceInfo)
    (hres : (getAllAfterPrimary w primary).1 = .ok l) (hne : l ≠ []) :
    (getAllAfterPrimary w primary).2 = some l := by
  simp only [getAllAfterPrimary] at hres ⊢
  by_cases h2 : (primary ++ (if !(RegeditGetAllVSInstanceInfo w.regRead).isEmpty
      then RegeditGetAllVSInstanceInfo w.regRead
      else EnvGetAllVSInstanceInfo w.envOracles)).length ≠ 0
  · rw [if_pos h2] at hres ⊢
    simp only [Except.ok.injEq] at hres
    rw [hres]
  · rw [if_neg h2] at hres ⊢
    by_cases h3 : (GetCMakeDefaultVSInstanceInfo w.cmakeMatch).length ≠ 0
    · rw [if_pos h3] at hres ⊢
      simp only [Except.ok.injEq] at hres
      rw [hres]
    · rw [if_neg h3] at hres ⊢
      simp only [Except.ok.injEq] at hres
      exact absurd hres.symm hne

/-- Every call that misses the cache and returns a non-empty list also stores
that exact list in the module-level cache. -/
theorem getAll_result_cached (needChipInfo skipEWDK ignoreCache : Bool) (w : World)
    (cache : Option (List VSInstanceInfo)) (l : List VSInstanceInfo)
    (hmiss : (pyTruthyCache cache && !ignoreCache) = false)
    (hres : (GetAllVSInstanceInfo needChipInfo skipEWDK ignoreCache w cache).1 = .ok l)
    (hne : l ≠ []) :
    (GetAllVSInstanceInfo needChipInfo skipEWDK ignoreCache w cache).2 = some l := by
  have hm : ¬((pyTruthyCache cache && !ignoreCache) = true) := by simp [hmiss]
  simp only [GetAllVSInstanceInfo] at hres ⊢
  rw [if_neg hm] at hres ⊢
  by_cases h1 : (GetEWDKAllVSInstanceInfo skipEWDK w.env).length ≠ 0
  · rw [if_pos h1] at hres ⊢
    simp only [Except.ok.injEq] at hres
    rw [hres]
  · rw [if_neg h1] at hres ⊢
    revert hres
    cases hsc : (if !(ComGetAllVSInstanceInfo w.fs w.comRootOk w.comInstances needChipInfo).isEmpty
        then Except.ok (ComGetAllVSInstanceInfo w.fs w.comRootOk w.comInstances needChipInfo)
        else VSWhereGetAllVSInstanceInfo w.vswhereOracles) with
    | error e =>
      intro hres
      simp at hres
    | ok primary =>
      intro hres
      exact getAllAfterPrimary_cached w primary l hres hne

/-- C7 (amended): when a cache-missing call returns a *non-empty* list, any
later call with the bypass flag clear returns that exact list from the cache
no matter how the underlying world changed.  (An empty first result is falsy
and is not treated as a cache hit, so the claim as stated fails for it.) -/
theorem C7_second_call_returns_cache (needChipInfo skipEWDK ignoreCache : Bool)
    (w1 : World) (cache : Option (List VSInstanceInfo)) (l : List VSInstanceInfo)
    (needChipInfo2 skipEWDK2 : Bool) (w2 : World)
    (hmiss : (pyTruthyCache cache && !ignoreCache) = false)
    (h1 : (GetAllVSInstanceInfo needChipInfo skipEWDK ignoreCache w1 cache).1 = .ok l)
    (hne : l ≠ []) :
    GetAllVSInstanceInfo needChipInfo2 skipEWDK2 false w2
        (GetAllVSInstanceInfo needChipInfo skipEWDK ignoreCache w1 cache).2
      = (.ok l, some l) := by
  rw [getAll_result_cached needChipInfo skipEWDK ignoreCache w1 cache l hmiss h1 hne]
  have ht : (pyTruthyCache (some l) && !false) = true := by
    simp [pyTruthyCache, List.isEmpty_iff, hne]
  simp only [GetAllVSInstanceInfo]
  rw [if_pos ht]
  simp

/-- C7 counterexample: a first call that finds nothing returns the empty
list, which is falsy and therefore not a cache hit; when the registry gains
entries between the calls, the second call with the bypass flag clear
re-runs the chain and returns a different list — refuting "the second call
returns a list equal to the first call's result even if the underlying
system state changed". -/
theorem C7_empty_cache_counterexample :
    (GetAllVSInstanceInfo false true false wEmpty none).1 = .ok []
    ∧ (GetAllVSInstanceInfo false true false wReg
        (GetAllVSInstanceInfo false true false wEmpty none).2).1
      = .ok [{ Version := some "14.0", VSInstallLocation := some "C:/VS14" },
             { Version := some "12.0", VSInstallLocation := some "C:/VS12" }] := by
  exact ⟨by decide, by decide⟩

/-- C7 witness: a first call on the registry world returns two records;
a second call on the all-failing world still returns the same two records
straight from the cache. -/
theorem C7_second_call_witness :
    GetAllVSInstanceInfo false true false wEmpty
        (GetAllVSInstanceInfo false true false wReg none).2
      = (.ok [{ Version := some "14.0", VSInstallLocation := some "C:/VS14" },
              { Version := some "12.0", VSInstallLocation := some "C:/VS12" }],
         some [{ Version := some "14.0", VSInstallLocation := some "C:/VS14" },
               { Version := some "12.0", VSInstallLocation := some "C:/VS12" }]) :=
  C7_second_call_returns_cache false true false wReg none
    [{ Version := some "14.0", VSInstallLocation := some "C:/VS14" },
     { Version := some "12.0", VSInstallLocation := some "C:/VS12" }]
    false true wEmpty (by decide) (by decide) (by decide)

/- ### C8: the embedded-kit short-circuit -/

/-- C8 (amended): when both driver-kit session flags read "true"
(case-insensitively), the caller has not disabled the embedded-kit strategy,
`VisualStudioVersion` is set and non-empty, and the cache is not hit, the
chain returns exactly one record synthesized from the session environment;
no other strategy contributes (arbitrary behaviors of every other oracle in
`w` leave the result unchanged).  Without a truthy `VisualStudioVersion` the
EWDK branch yields the empty list and the other strategies run, so the
claim as stated fails. -/
theorem C8_ewdk_short_circuit (needChipInfo ignoreCache : Bool) (w : World)
    (cache : Option (List VSInstanceInfo)) (v : String)
    (hmiss : (pyTruthyCache cache && !ignoreCache) = false)
    (hw1 : pyLower ((w.env "EnterpriseWDK").getD "") = "true")
    (hw2 : pyLower ((w.env "DisableRegistryUse").getD "") = "true")
    (hv : w.env "VisualStudioVersion" = some v) (hv0 : v ≠ "") :
    (GetAllVSInstanceInfo needChipInfo false ignoreCache w cache).1
      = .ok [{ bWin10SDK := some true
               bWin81SDK := some (((w.env "WindowsSdkDir_81").getD "") != "")
               Version := w.env "VisualStudioVersion"
               VSInstallLocation := w.env "VSINSTALLDIR"
               VCToolsetVersion := w.env "VCToolsVersion"
               chip := w.env "VSCMD_ARG_TGT_ARCH" }] := by
  have hm : ¬((pyTruthyCache cache && !ignoreCache) = true) := by simp [hmiss]
  have hE : GetEWDKAllVSInstanceInfo false w.env
      = [{ bWin10SDK := some true
           bWin81SDK := some (((w.env "WindowsSdkDir_81").getD "") != "")
           Version := w.env "VisualStudioVersion"
           VSInstallLocation := w.env "VSINSTALLDIR"
           VCToolsetVersion := w.env "VCToolsVersion"
           chip := w.env "VSCMD_ARG_TGT_ARCH" }] := by
    simp [GetEWDKAllVSInstanceInfo, hw1, hw2, hv, pyTruthyStr, hv0]
  simp only [GetAllVSInstanceInfo]
  rw [if_neg hm, hE]
  simp

/-- The environment of the concrete embedded-kit scenario of the claim. -/
def envC8 : String → Option String := fun name =>
  if name == "EnterpriseWDK" then some "true"
  else if name == "DisableRegistryUse" then some "true"
  else if name == "VisualStudioVersion" then some "17.0"
  else if name == "VSINSTALLDIR" then some "/opt/vs"
  else none

/-- The concrete embedded-kit world; all other collaborators report nothing
(their behavior is irrelevant by the amended theorem). -/
def wC8 : World := { wEmpty with env := envC8 }

/-- C8 witness: in the scenario `EnterpriseWDK=true`, `DisableRegistryUse=true`,
`VisualStudioVersion=17.0`, `VSINSTALLDIR=/opt/vs`, a call with the
embedded-kit strategy enabled returns exactly one record with version
"17.0", install location "/opt/vs" and the Win10-SDK flag true. -/
theorem C8_ewdk_witness :
    (GetAllVSInstanceInfo true false false wC8 none).1
      = .ok [{ bWin10SDK := some true
               bWin81SDK := some (((wC8.env "WindowsSdkDir_81").getD "") != "")
               Version := wC8.env "VisualStudioVersion"
               VSInstallLocation := wC8.env "VSINSTALLDIR"
               VCToolsetVersion := wC8.env "VCToolsVersion"
               chip := wC8.env "VSCMD_ARG_TGT_ARCH" }] :=
  C8_ewdk_short_circuit true false wC8 none "17.0" (by decide) (by decide) (by decide)
    (by decide) (by decide)

/-- An environment satisfying the embedded-kit flag condition but with
`VisualStudioVersion` unset. -/
def envC8bad : String → Option String := fun name =>
  if name == "EnterpriseWDK" then some "true"
  else if name == "DisableRegistryUse" then some "true"
  else none

/-- The flag condition holds but the registry is populated. -/
def wC8bad : World := { wEmpty with env := envC8bad, regRead := regReadDup }

/-- C8 counterexample: both driver-kit session flags read "true" and the
strategy is enabled (`skipEWDK = false`), yet — because `VisualStudioVersion`
is unset — the chain returns the registry strategy's two records rather than
exactly one environment-synthesized record, and other strategies do execute. -/
theorem C8_ewdk_counterexample :
    pyLower ((wC8bad.env "EnterpriseWDK").getD "") = "true"
    ∧ pyLower ((wC8bad.env "DisableRegistryUse").getD "") = "true"
    ∧ (GetAllVSInstanceInfo false false false wC8bad none).1
        = .ok [{ Version := some "14.0", VSInstallLocation := some "C:/VS14" },
               { Version := some "12.0", VSInstallLocation := some "C:/VS12" }] := by
  exact ⟨by decide, by decide, by decide⟩

/- ### C6: exception safety of the public query -/

/-- One locator item the module consumes without raising anywhere: a JSON
object whose `installationVersion` field, when present, is a string (the
stored version value becomes the line-652 sort key, and non-string keys can
raise `TypeError` there when compared). -/
def jsonItemHasStrVersion : Json → Bool
  | .obj fields =>
    match fields.lookup "installationVersion" with
    | none => true
    | some (.str _) => true
    | some _ => false
  | _ => false

/-- Locator output the module consumes without raising: a JSON list of
objects whose `installationVersion` fields, when present, are strings. -/
def jsonIsSafeLocatorList : Json → Bool
  | .arr elems => elems.all jsonItemHasStrVersion
  | _ => false

/-- Record construction never raises over a list of JSON objects, and with
string-or-absent `installationVersion` fields every built record carries a
string version value. -/
theorem vswhereItemsToRecs_ok (items : List Json)
    (h : items.all jsonItemHasStrVersion = true) :
    ∃ recs, vswhereItemsToRecs items = .ok recs
      ∧ ∀ r ∈ recs, ∃ s, r.version = Json.str s := by
  induction items with
  | nil => exact ⟨[], rfl, by simp⟩
  | cons item rest ih =>
    rw [List.all_cons, Bool.and_eq_true] at h
    obtain ⟨h1, h2⟩ := h
    obtain ⟨recs, hrecs, hstr⟩ := ih h2
    cases item with
    | obj fields =>
      have hver : ∃ s, pyOrEmptyStr (fields.lookup "installationVersion") = Json.str s := by
        simp only [jsonItemHasStrVersion] at h1
        cases hlk : fields.lookup "installationVersion" with
        | none => exact ⟨"", rfl⟩
        | some v =>
          rw [hlk] at h1
          cases v with
          | str s =>
            simp only [pyOrEmptyStr, pyTruthyJson]
            by_cases hs : (s != "") = true
            · rw [if_pos hs]; exact ⟨s, rfl⟩
            · rw [if_neg hs]; exact ⟨"", rfl⟩
          | num n => simp at h1
          | bool b => simp at h1
          | null => simp at h1
          | arr es => simp at h1
          | obj fs => simp at h1
      obtain ⟨s0, hs0⟩ := hver
      refine ⟨{ installLocation := fields.lookup "installationPath"
                version := pyOrEmptyStr (fields.lookup "installationVersion") } :: recs,
        ?_, ?_⟩
      · simp [vswhereItemsToRecs, pyGetField, hrecs]
      · intro r hr
        rcases List.mem_cons.mp hr with hr0 | hrtail
        · subst hr0; exact ⟨s0, hs0⟩
        · exact hstr r hrtail
    | str s => simp [jsonItemHasStrVersion] at h1
    | num n => simp [jsonItemHasStrVersion] at h1
    | bool b => simp [jsonItemHasStrVersion] at h1
    | null => simp [jsonItemHasStrVersion] at h1
    | arr es => simp [jsonItemHasStrVersion] at h1

/-- The strategy sort never raises when every stored version value is a
string: all sort keys are then strings and mutually orderable. -/
theorem pySortRawInfosDesc_ok (l : List VSWhereRawInfo)
    (h : ∀ r ∈ l, ∃ s, r.version = Json.str s) :
    ∃ l2, pySortRawInfosDesc l = .ok l2 := by
  by_cases hlen : l.length ≤ 1
  · exact ⟨l, by simp only [pySortRawInfosDesc]; rw [if_pos hlen]⟩
  · have hall : (l.map VSWhereRawInfo.sortKey).all
        (fun k => match k with | .str _ => true | _ => false) = true := by
      rw [List.all_eq_true]
      intro k hk
      rcases List.mem_map.mp hk with ⟨r, hr, hkey⟩
      obtain ⟨s, hs⟩ := h r hr
      subst hkey
      simp only [VSWhereRawInfo.sortKey, hs]
      by_cases ht : pyTruthyJson (Json.str s) = true
      · rw [if_pos ht]
      · rw [if_neg ht]
    have hcomp : pyKeysAllComparable (l.map VSWhereRawInfo.sortKey) = true := by
      simp only [pyKeysAllComparable]
      rw [hall]
      simp
    exact ⟨List.insertionSort rawVersionDescRel l,
      by simp only [pySortRawInfosDesc]; rw [if_neg hlen, if_pos hcomp]⟩

/-- The locator loop never raises when every parsed JSON value is a safe
locator list, and every accumulated record keeps a string version value. -/
theorem vswhereLoop_ok (o : VSWhereOracles)
    (hshape : ∀ s j, o.jsonLoads s = some j → jsonIsSafeLocatorList j = true) :
    ∀ (names : List String) (acc : List VSWhereRawInfo),
      (∀ r ∈ acc, ∃ s, r.version = Json.str s) →
      ∃ res, vswhereLoop o names acc = .ok res
        ∧ ∀ r ∈ res.1, ∃ s, r.version = Json.str s := by
  intro names
  induction names with
  | nil => intro acc hacc; exact ⟨(acc, false), rfl, hacc⟩
  | cons programFile rest ih =>
    intro acc hacc
    cases henv : o.env programFile with
    | none =>
      obtain ⟨res, hres, hrp⟩ := ih acc hacc
      exact ⟨res, by simp only [vswhereLoop, henv]; exact hres, hrp⟩
    | some programFilePath =>
      by_cases hempty : (programFilePath == "") = true
      · obtain ⟨res, hres, hrp⟩ := ih acc hacc
        exact ⟨res, by simp only [vswhereLoop, henv]; rw [if_pos hempty]; exact hres, hrp⟩
      · by_cases hfile : o.isfile
            (programFilePath ++ "/Microsoft Visual Studio/Installer/vswhere.exe") = true
        · cases hrun : o.runOutput
              (programFilePath ++ "/Microsoft Visual Studio/Installer/vswhere.exe") with
          | none =>
            exact ⟨(acc, true), by
              simp only [vswhereLoop, henv]
              rw [if_neg hempty, if_pos hfile]
              simp only [hrun], hacc⟩
          | some out =>
            cases hj : o.jsonLoads out with
            | none =>
              obtain ⟨res, hres, hrp⟩ := ih acc hacc
              exact ⟨res, by
                simp only [vswhereLoop, henv]
                rw [if_neg hempty, if_pos hfile]
                simp only [hrun, hj, Option.getD_none, pyIterJson, vswhereItemsToRecs,
                  List.append_nil]
                exact hres, hrp⟩
            | some j =>
              have hja := hshape out j hj
              cases j with
              | str s => simp [jsonIsSafeLocatorList] at hja
              | num n => simp [jsonIsSafeLocatorList] at hja
              | bool b => simp [jsonIsSafeLocatorList] at hja
              | null => simp [jsonIsSafeLocatorList] at hja
              | obj fields => simp [jsonIsSafeLocatorList] at hja
              | arr elems =>
                simp only [jsonIsSafeLocatorList] at hja
                obtain ⟨recs, hrecs, hrecsP⟩ := vswhereItemsToRecs_ok elems hja
                have hacc2 : ∀ r ∈ acc ++ recs, ∃ s, r.version = Json.str s := by
                  intro r hr
                  rcases List.mem_append.mp hr with hr1 | hr2
                  · exact hacc r hr1
                  · exact hrecsP r hr2
                obtain ⟨res, hres, hrp⟩ := ih (acc ++ recs) hacc2
                exact ⟨res, by
                  simp only [vswhereLoop, henv]
                  rw [if_neg hempty, if_pos hfile]
                  simp only [hrun, hj, Option.getD_some, pyIterJson]
                  rw [hrecs]
                  exact hres, hrp⟩
        · obtain ⟨res, hres, hrp⟩ := ih acc hacc
          exact ⟨res, by
            simp only [vswhereLoop, henv]
            rw [if_neg hempty, if_neg hfile]
            exact hres, hrp⟩

/-- The locator strategy never raises when every parsed JSON value is a list
of objects with string-or-absent `installationVersion` fields: neither the
loop nor the line-652 sort raises. -/
theorem VSWhereGetAllVSInstanceInfo_ok (o : VSWhereOracles)
    (hshape : ∀ s j, o.jsonLoads s = some j → jsonIsSafeLocatorList j = true) :
    ∃ res, VSWhereGetAllVSInstanceInfo o = .ok res := by
  obtain ⟨⟨acc, early⟩, h, hp⟩ :=
    vswhereLoop_ok o hshape ["ProgramFiles(x86)", "ProgramFiles"] [] (by simp)
  cases early with
  | true =>
    exact ⟨acc.map rawToVSInstanceInfo, by
      simp only [VSWhereGetAllVSInstanceInfo, h]⟩
  | false =>
    obtain ⟨l2, hsort⟩ := pySortRawInfosDesc_ok acc hp
    exact ⟨l2.map rawToVSInstanceInfo, by
      simp only [VSWhereGetAllVSInstanceInfo, h]
      rw [hsort]⟩

/-- The tail of the chain never raises. -/
theorem getAllAfterPrimary_ok (w : World) (primary : List VSInstanceInfo) :
    ∃ l, (getAllAfterPrimary w primary).1 = .ok l := by
  by_cases h2 : (primary ++ (if !(RegeditGetAllVSInstanceInfo w.regRead).isEmpty
      then RegeditGetAllVSInstanceInfo w.regRead
      else EnvGetAllVSInstanceInfo w.envOracles)).length ≠ 0
  · exact ⟨_, by simp only [getAllAfterPrimary]; rw [if_pos h2]⟩
  · by_cases h3 : (GetCMakeDefaultVSInstanceInfo w.cmakeMatch).length ≠ 0
    · exact ⟨_, by simp only [getAllAfterPrimary]; rw [if_neg h2, if_pos h3]⟩
    · exact ⟨[], by simp only [getAllAfterPrimary]; rw [if_neg h2, if_neg h3]⟩

/-- C6 (amended): the public query returns a list — no exception crosses the
boundary — for every behavior of the collaborators in which the locator's
output, whenever it parses as JSON, parses to a list of objects whose
`installationVersion` fields, when present, are strings; and when every
strategy finds nothing, the result is the empty list.  (Locator output
parsing to JSON outside this shape raises an uncaught `TypeError` or
`AttributeError` through the public boundary: a non-list value or non-object
element raises in the loop, and a non-string `installationVersion` next to a
string one raises in the strategy's own sort — so the claim as stated
fails.) -/
theorem C6_no_raise_with_wellshaped_locator_json (needChipInfo skipEWDK ignoreCache : Bool)
    (w : World) (cache : Option (List VSInstanceInfo))
    (hshape : ∀ s j, w.jsonLoads s = some j → jsonIsSafeLocatorList j = true) :
    (∃ l, (GetAllVSInstanceInfo needChipInfo skipEWDK ignoreCache w cache).1 = .ok l)
    ∧ ((pyTruthyCache cache && !ignoreCache) = false →
        GetEWDKAllVSInstanceInfo skipEWDK w.env = [] →
        ComGetAllVSInstanceInfo w.fs w.comRootOk w.comInstances needChipInfo = [] →
        VSWhereGetAllVSInstanceInfo w.vswhereOracles = .ok [] →
        RegeditGetAllVSInstanceInfo w.regRead = [] →
        EnvGetAllVSInstanceInfo w.envOracles = [] →
        GetCMakeDefaultVSInstanceInfo w.cmakeMatch = [] →
        (GetAllVSInstanceInfo needChipInfo skipEWDK ignoreCache w cache).1 = .ok []) := by
  constructor
  · by_cases hhit : (pyTruthyCache cache && !ignoreCache) = true
    · exact ⟨cache.getD [], by simp only [GetAllVSInstanceInfo]; rw [if_pos hhit]⟩
    · by_cases h1 : (GetEWDKAllVSInstanceInfo skipEWDK w.env).length ≠ 0
      · exact ⟨_, by simp only [GetAllVSInstanceInfo]; rw [if_neg hhit, if_pos h1]⟩
      · by_cases hc : (!(ComGetAllVSInstanceInfo w.fs w.comRootOk w.comInstances
            needChipInfo).isEmpty) = true
        · obtain ⟨l, hl⟩ := getAllAfterPrimary_ok w
            (ComGetAllVSInstanceInfo w.fs w.comRootOk w.comInstances needChipInfo)
          exact ⟨l, by
            simp only [GetAllVSInstanceInfo]
            rw [if_neg hhit, if_neg h1, if_pos hc]
            exact hl⟩
        · obtain ⟨res, hres⟩ := VSWhereGetAllVSInstanceInfo_ok w.vswhereOracles hshape
          obtain ⟨l, hl⟩ := getAllAfterPrimary_ok w res
          exact ⟨l, by
            simp only [GetAllVSInstanceInfo]
            rw [if_neg hhit, if_neg h1, if_neg hc, hres]
            exact hl⟩
  · intro hmiss hewdk hcom hvw hreg henv hcmake
    have hm : ¬((pyTruthyCache cache && !ignoreCache) = true) := by simp [hmiss]
    simp only [GetAllVSInstanceInfo]
    rw [if_neg hm, hewdk, hcom]
    simp only [List.length_nil, List.isEmpty_nil, Bool.not_true, ne_eq, if_neg]
    rw [hvw]
    simp [getAllAfterPrimary, hreg, henv, hcmake]

/-- A world whose locator executable exists and prints "5": valid JSON of a
non-list shape. -/
def wC6 : World :=
  { wEmpty with
    env := fun name => if name == "ProgramFiles" then some "C:/PF" else none
    fs := { isdir := fun _ => false, isfile := fun _ => true, readFirstLine := fun _ => "" }
    vswhereRun := fun _ => some "5"
    jsonLoads := fun _ => some (Json.num 5) }

/-- A world whose locator prints a JSON list of two objects, one with a
numeric `installationVersion` and one with a string one. -/
def wC6num : World :=
  { wEmpty with
    env := fun name => if name == "ProgramFiles" then some "C:/PF" else none
    fs := { isdir := fun _ => false, isfile := fun _ => true, readFirstLine := fun _ => "" }
    vswhereRun := fun _ => some "json"
    jsonLoads := fun _ => some (Json.arr
      [Json.obj [("installationVersion", Json.num 2)],
       Json.obj [("installationVersion", Json.str "1.0")]]) }

/-- C6 counterexample: two collaborator behaviors under which an exception
escapes `GetAllVSInstanceInfo` to the caller, refuting "never propagates an
exception".  With the locator printing `5` (valid JSON that is not a list),
iterating the parsed value raises `TypeError`; with it printing a list of
objects whose `installationVersion` values mix a number with a string, the
strategy's own sort compares the stored values and raises `TypeError`. -/
theorem C6_raise_counterexample :
    (GetAllVSInstanceInfo false true false wC6 none).1 = .error ()
    ∧ (GetAllVSInstanceInfo false true false wC6num none).1 = .error () := by
  exact ⟨by decide, by decide⟩

/-- C6 witness: with every collaborator failing (and the locator output
never parsing), the public query returns the empty list. -/
theorem C6_no_raise_witness :
    (GetAllVSInstanceInfo false true false wEmpty none).1 = .ok [] :=
  (C6_no_raise_with_wellshaped_locator_json false true false wEmpty none
      (fun _ _ h => nomatch h)).2 (by decide) rfl rfl rfl rfl rfl rfl
